import Mathlib

/-!
Verification of vpn3gui (src/vpn3gui.py) against its natural-language design
specification.

The Python source is shallowly embedded: each relevant method of the
`VPNManager` class becomes a pure Lean function over an explicit state record.
External effects (the `openvpn3` control-plane executable, the keyring
backend, the filesystem) are modelled as explicit inputs/outputs: a command
invocation is a `CmdResult` value, backend writes take a boolean outcome
telling whether the underlying call raised, and the filesystem is an
association list from path to content.

Python string primitives used by the source (`str.strip`, `str.split`,
`str.split(sep)`, `int(...)`, `os.path.basename`, slicing) are embedded first,
with Python semantics (e.g. `int` accepts a sign and single internal
underscores; `strip` removes ASCII whitespace).
-/

/-- Characters stripped by Python `str.strip()` (ASCII whitespace). -/
def pyIsSpace (c : Char) : Bool :=
  c = ' ' ∨ c = '\t' ∨ c = '\n' ∨ c = '\r' ∨ c = '\x0b' ∨ c = '\x0c'

/-- Python `s.strip()`. -/
def pyStrip (s : String) : String :=
  let l := (s.data.dropWhile pyIsSpace).reverse.dropWhile pyIsSpace
  String.mk l.reverse

/-- Substring occurrence on character lists (checks every position). -/
def containsSub : List Char → List Char → Bool
  | [], pat => pat.isEmpty
  | c :: rest, pat => pat.isPrefixOf (c :: rest) || containsSub rest pat

/-- Python `pat in s` (substring test). -/
def strContains (s pat : String) : Bool :=
  containsSub s.data pat.data

/-- Python `s.startswith(p)`. -/
def pyStartsWith (s p : String) : Bool :=
  p.data.isPrefixOf s.data

/-- Split a character list at each leftmost non-overlapping occurrence of a
nonempty separator, keeping empty pieces (the fuel argument only bounds the
recursion; it is called with the list length). -/
def splitOnListFuel (sep : List Char) : Nat → List Char → List (List Char)
  | _, [] => [[]]
  | 0, l => [l]
  | fuel + 1, c :: rest =>
      if sep.isPrefixOf (c :: rest) then
        [] :: splitOnListFuel sep fuel ((c :: rest).drop sep.length)
      else
        match splitOnListFuel sep fuel rest with
        | [] => [[c]]
        | p :: ps => (c :: p) :: ps

/-- Python `s.split(sep)` for a nonempty separator (for an empty separator
Python raises; `[s]` is returned here, matching `String.splitOn`). -/
def pySplitOn (s sep : String) : List String :=
  if sep.data.isEmpty then [s]
  else (splitOnListFuel sep.data s.data.length s.data).map String.mk

/-- Whitespace-run split on character lists (fuel-bounded recursion). -/
def splitWsFuel : Nat → List Char → List (List Char)
  | _, [] => []
  | 0, l => [l]
  | fuel + 1, c :: rest =>
      if pyIsSpace c then splitWsFuel fuel rest
      else ((c :: rest).takeWhile (fun d => !(pyIsSpace d)))
            :: splitWsFuel fuel ((c :: rest).dropWhile (fun d => !(pyIsSpace d)))

/-- Python `s.split()` with no argument: split on runs of whitespace,
discarding empty pieces. -/
def pySplitWs (s : String) : List String :=
  (splitWsFuel s.data.length s.data).map String.mk

/-- Valid Python integer-literal digit run after the first digit: ASCII
digits with single internal underscores. -/
def pyDigitsRest : List Char → Bool
  | [] => true
  | '_' :: [] => false
  | '_' :: c :: rest => c.isDigit && pyDigitsRest rest
  | c :: rest => c.isDigit && pyDigitsRest rest

/-- Valid Python digit run: nonempty, starts with a digit. -/
def pyDigits : List Char → Bool
  | [] => false
  | c :: rest => c.isDigit && pyDigitsRest rest

/-- Numeric value of a digit run, skipping underscores. -/
def digitsToNat (l : List Char) : Nat :=
  l.foldl (fun a c => if c = '_' then a else a * 10 + (c.toNat - 48)) 0

/-- Python `int(s)` for ASCII input: strips whitespace, accepts an optional
sign and a digit run with single internal underscores; `none` models the
`ValueError` raised on any other input. -/
def pyInt (s : String) : Option Int :=
  match (pyStrip s).data with
  | '+' :: r => if pyDigits r then some (digitsToNat r : Int) else none
  | '-' :: r => if pyDigits r then some (-(digitsToNat r : Int)) else none
  | r => if pyDigits r then some (digitsToNat r : Int) else none

/-- Python `os.path.basename`: the part after the last `/`. -/
def basename (s : String) : String :=
  (pySplitOn s "/").getLastD ""

/-- Python `s[-n:]` for a string. -/
def pyLastChars (n : Nat) (s : String) : String :=
  String.mk (s.data.drop (s.data.length - n))

/-- Python `s[:n]` for a string. -/
def pyTakeChars (n : Nat) (s : String) : String :=
  String.mk (s.data.take n)

/-- Python `f.readlines()` applied to full file content: pieces ending in a
newline keep it; a final piece without a newline is a line iff nonempty. -/
def pyReadlines (c : String) : List String :=
  let ps := pySplitOn c "\n"
  (ps.dropLast.map (fun p => p ++ "\n")) ++
    (if ps.getLastD "" = "" then [] else [ps.getLastD ""])

/-- Python `dict` assignment `m[k] = v`: replace in place if the key is
present, else append. -/
def dictInsert {α : Type} : List (String × α) → String → α → List (String × α)
  | [], k, v => [(k, v)]
  | (k1, v1) :: rest, k, v =>
      if k1 = k then (k, v) :: rest else (k1, v1) :: dictInsert rest k v

/-- Python `dict` lookup `m.get(k)`. -/
def dictLookup {α : Type} : List (String × α) → String → Option α
  | [], _ => none
  | (k1, v1) :: rest, k => if k1 = k then some v1 else dictLookup rest k

theorem dictLookup_dictInsert {α : Type} (m : List (String × α)) (k d : String)
    (v : α) :
    dictLookup (dictInsert m k v) d = if k = d then some v else dictLookup m d := by
  induction m with
  | nil => simp [dictInsert, dictLookup]
  | cons e rest ih =>
      obtain ⟨k1, v1⟩ := e
      by_cases h1 : k1 = k
      · subst h1
        by_cases h2 : k1 = d <;> simp [dictInsert, dictLookup, h2]
      · by_cases h2 : k1 = d
        · subst h2
          have : ¬ k = k1 := fun h => h1 h.symm
          simp [dictInsert, dictLookup, h1, this]
        · simp [dictInsert, dictLookup, h1, h2, ih]

theorem dictLookup_dictInsert_self {α : Type} (m : List (String × α))
    (k : String) (v : α) : dictLookup (dictInsert m k v) k = some v := by
  simp [dictLookup_dictInsert]

theorem dictLookup_dictInsert_ne {α : Type} (m : List (String × α))
    (k d : String) (v : α) (h : k ≠ d) :
    dictLookup (dictInsert m k v) d = dictLookup m d := by
  simp [dictLookup_dictInsert, h]

/-! ## Traffic rate tracker (`__init__` chart fields, `update_chart_data`)

Source lines 195-200 initialise the chart state:
`deque([0] * 60, maxlen=60)` for each direction, `last_bytes_in = 0`,
`last_bytes_out = 0`.  `update_chart_data` (lines 576-615) computes the two
rates, appends them, and records the last counters.  The display-only parts
of `update_chart_data` (the float scaling maximum `chart_max_value`, the
stats markup label and the redraw request) are not part of the tracked state
and are omitted here.
-/

/-- `collections.deque` with `maxlen = cap`, already at capacity: appending
drops from the left to keep at most `cap` elements. -/
def dequeAppend (cap : Nat) (xs : List Int) (x : Int) : List Int :=
  let ys := xs ++ [x]
  ys.drop (ys.length - cap)

/-- `self.chart_data_points = 60` (source line 195). -/
def chart_data_points : Nat := 60

structure ChartState where
  bytesInHistory : List Int
  bytesOutHistory : List Int
  lastBytesIn : Int
  lastBytesOut : Int
deriving DecidableEq

/-- Chart fields as initialised in `__init__` (source lines 196-199). -/
def initChart : ChartState :=
  { bytesInHistory := List.replicate chart_data_points 0
    bytesOutHistory := List.replicate chart_data_points 0
    lastBytesIn := 0
    lastBytesOut := 0 }

/-- The per-direction rate computation of `update_chart_data`
(source lines 579-587): `current - previous` when the previous counter is
positive and the current one larger, else 0. -/
def chart_rate (last cur : Int) : Int :=
  if last > 0 ∧ cur > last then cur - last else 0

/-- `update_chart_data(bytes_in, bytes_out)` (source lines 576-601), state
part: compute both rates, append to the histories, record last counters. -/
def update_chart_data (c : ChartState) (bytesIn bytesOut : Int) : ChartState :=
  { bytesInHistory :=
      dequeAppend chart_data_points c.bytesInHistory (chart_rate c.lastBytesIn bytesIn)
    bytesOutHistory :=
      dequeAppend chart_data_points c.bytesOutHistory (chart_rate c.lastBytesOut bytesOut)
    lastBytesIn := bytesIn
    lastBytesOut := bytesOut }

/-- One tracker update from a pair of cumulative counters. -/
def chart_step (c : ChartState) (u : Int × Int) : ChartState :=
  update_chart_data c u.1 u.2

/-- Run the tracker from its initial state over a counter sequence. -/
def chart_run (us : List (Int × Int)) : ChartState :=
  us.foldl chart_step initChart

/-- The in-direction rate samples a counter sequence produces, given the
previously recorded in-counter. -/
def in_rates : Int → List (Int × Int) → List Int
  | _, [] => []
  | last, u :: us => chart_rate last u.1 :: in_rates u.1 us

/-- The out-direction rate samples a counter sequence produces. -/
def out_rates : Int → List (Int × Int) → List Int
  | _, [] => []
  | last, u :: us => chart_rate last u.2 :: out_rates u.2 us

theorem in_rates_length (us : List (Int × Int)) :
    ∀ l : Int, (in_rates l us).length = us.length := by
  induction us with
  | nil => intro l; rfl
  | cons u us ih => intro l; simp [in_rates, ih]

theorem out_rates_length (us : List (Int × Int)) :
    ∀ l : Int, (out_rates l us).length = us.length := by
  induction us with
  | nil => intro l; rfl
  | cons u us ih => intro l; simp [out_rates, ih]

theorem dequeAppend_eq (xs : List Int) (x : Int)
    (h : xs.length = chart_data_points) :
    dequeAppend chart_data_points xs x = (xs ++ [x]).drop 1 := by
  show (xs ++ [x]).drop ((xs ++ [x]).length - chart_data_points) = (xs ++ [x]).drop 1
  have h2 : (xs ++ [x]).length - chart_data_points = 1 := by
    simp [h]
  rw [h2]

theorem dequeAppend_len (xs : List Int) (x : Int)
    (h : xs.length = chart_data_points) :
    (dequeAppend chart_data_points xs x).length = chart_data_points := by
  rw [dequeAppend_eq xs x h]
  simp [h]

theorem drop_one_append (xs rest : List Int) (r : Int) (n : Nat)
    (h : 1 ≤ xs.length) :
    ((xs ++ [r]).drop 1 ++ rest).drop n = (xs ++ r :: rest).drop (n + 1) := by
  have h1 : (xs ++ [r]).drop 1 = xs.drop 1 ++ [r] := by
    rw [List.drop_append_eq_append_drop]
    have h0 : 1 - xs.length = 0 := by omega
    rw [h0]
    rfl
  rw [h1, List.append_assoc, List.singleton_append,
    List.drop_append_eq_append_drop, List.drop_append_eq_append_drop,
    List.drop_drop, List.length_drop]
  have h2 : n - (xs.length - 1) = n + 1 - xs.length := by omega
  have h3 : n + 1 = 1 + n := by omega
  rw [h2, h3]

theorem chart_run_histories (us : List (Int × Int)) :
    ∀ c : ChartState,
      c.bytesInHistory.length = chart_data_points →
      c.bytesOutHistory.length = chart_data_points →
      (us.foldl chart_step c).bytesInHistory
          = (c.bytesInHistory ++ in_rates c.lastBytesIn us).drop us.length
        ∧ (us.foldl chart_step c).bytesOutHistory
          = (c.bytesOutHistory ++ out_rates c.lastBytesOut us).drop us.length := by
  induction us with
  | nil =>
      intro c h1 h2
      simp [in_rates, out_rates]
  | cons u us ih =>
      intro c h1 h2
      have hstep : chart_step c u
          = { bytesInHistory := dequeAppend chart_data_points c.bytesInHistory
                (chart_rate c.lastBytesIn u.1)
              bytesOutHistory := dequeAppend chart_data_points c.bytesOutHistory
                (chart_rate c.lastBytesOut u.2)
              lastBytesIn := u.1
              lastBytesOut := u.2 } := rfl
      have lin := dequeAppend_len c.bytesInHistory (chart_rate c.lastBytesIn u.1) h1
      have lout := dequeAppend_len c.bytesOutHistory (chart_rate c.lastBytesOut u.2) h2
      have hrec := ih (chart_step c u) (by rw [hstep]; exact lin) (by rw [hstep]; exact lout)
      have e1 : (chart_step c u).bytesInHistory
          = (c.bytesInHistory ++ [chart_rate c.lastBytesIn u.1]).drop 1 := by
        rw [hstep]
        exact dequeAppend_eq _ _ h1
      have e2 : (chart_step c u).bytesOutHistory
          = (c.bytesOutHistory ++ [chart_rate c.lastBytesOut u.2]).drop 1 := by
        rw [hstep]
        exact dequeAppend_eq _ _ h2
      have e3 : (chart_step c u).lastBytesIn = u.1 := by rw [hstep]
      have e4 : (chart_step c u).lastBytesOut = u.2 := by rw [hstep]
      constructor
      · have := hrec.1
        rw [e1, e3] at this
        rw [List.foldl_cons, this,
          drop_one_append _ _ _ _ (by rw [h1]; decide)]
        simp [in_rates]
      · have := hrec.2
        rw [e2, e4] at this
        rw [List.foldl_cons, this,
          drop_one_append _ _ _ _ (by rw [h2]; decide)]
        simp [out_rates]

/-- C2 counterexample: the claim says that after `N = 1` update with
capacity `C = 60` the buffer holds `min(N, C) = 1` sample; in the code the
deque is created already holding 60 zero samples
(`deque([0] * 60, maxlen=60)`), so after one update it holds 60 samples,
not 1. -/
theorem ring_buffer_count_counterexample :
    (update_chart_data initChart 5 7).bytesInHistory.length = 60
    ∧ (update_chart_data initChart 5 7).bytesInHistory.length ≠ min 1 60 := by
  constructor
  · decide
  · decide

/-- C2 (amended): after `N` rate-tracker updates the each-direction buffer
holds exactly `C = 60` values: the `min(N, C)` most recent rate samples at
the end, preceded by `C - min(N, C)` of the initial zero padding; once
`N` exceeds `C` the oldest sample is evicted first (the buffer is the last
`C` elements of padding-then-samples). -/
theorem ring_buffer_amended (us : List (Int × Int)) :
    (chart_run us).bytesInHistory.length = chart_data_points
    ∧ (chart_run us).bytesOutHistory.length = chart_data_points
    ∧ (chart_run us).bytesInHistory
        = (List.replicate chart_data_points 0 ++ in_rates 0 us).drop us.length
    ∧ (chart_run us).bytesOutHistory
        = (List.replicate chart_data_points 0 ++ out_rates 0 us).drop us.length := by
  have h0in : initChart.bytesInHistory.length = chart_data_points := by
    simp [initChart]
  have h0out : initChart.bytesOutHistory.length = chart_data_points := by
    simp [initChart]
  have h := chart_run_histories us initChart h0in h0out
  have hin : (chart_run us).bytesInHistory
      = (List.replicate chart_data_points 0 ++ in_rates 0 us).drop us.length := by
    have := h.1
    simpa [chart_run, initChart] using this
  have hout : (chart_run us).bytesOutHistory
      = (List.replicate chart_data_points 0 ++ out_rates 0 us).drop us.length := by
    have := h.2
    simpa [chart_run, initChart] using this
  refine ⟨?_, ?_, hin, hout⟩
  · rw [hin]
    simp [in_rates_length]
  · rw [hout]
    simp [out_rates_length]

theorem chart_run_hist_nonneg (us : List (Int × Int)) :
    ∀ c : ChartState,
      (∀ x ∈ c.bytesInHistory, (0 : Int) ≤ x) →
      (∀ x ∈ c.bytesOutHistory, (0 : Int) ≤ x) →
      (∀ x ∈ (us.foldl chart_step c).bytesInHistory, (0 : Int) ≤ x)
      ∧ (∀ x ∈ (us.foldl chart_step c).bytesOutHistory, (0 : Int) ≤ x) := by
  induction us with
  | nil =>
      intro c h1 h2
      exact ⟨h1, h2⟩
  | cons u us ih =>
      intro c h1 h2
      rw [List.foldl_cons]
      refine ih (chart_step c u) ?_ ?_
      · intro x hx
        have hx2 : x ∈ c.bytesInHistory ++ [chart_rate c.lastBytesIn u.1] :=
          List.drop_subset _ _ hx
        rcases List.mem_append.mp hx2 with hmem | hmem
        · exact h1 x hmem
        · have : x = chart_rate c.lastBytesIn u.1 := List.mem_singleton.mp hmem
          subst this
          unfold chart_rate
          split
          · omega
          · omega
      · intro x hx
        have hx2 : x ∈ c.bytesOutHistory ++ [chart_rate c.lastBytesOut u.2] :=
          List.drop_subset _ _ hx
        rcases List.mem_append.mp hx2 with hmem | hmem
        · exact h2 x hmem
        · have : x = chart_rate c.lastBytesOut u.2 := List.mem_singleton.mp hmem
          subst this
          unfold chart_rate
          split
          · omega
          · omega

/-- C5: the emitted per-direction rate is `current - previous` exactly when
the previous counter was positive and the current one strictly larger, and 0
otherwise (decrease, equality, or the zero "no prior sample" sentinel); no
negative rate is ever present in either history; and the concrete scenario
`update(100, 50)` then `update(80, 60)` records in-rate 0 and out-rate 10 on
the second call. -/
theorem rate_delta_and_no_negative :
    (∀ last cur : Int, 0 < last → last < cur → chart_rate last cur = cur - last)
    ∧ (∀ last cur : Int, cur ≤ last → chart_rate last cur = 0)
    ∧ (∀ last cur : Int, last ≤ 0 → chart_rate last cur = 0)
    ∧ (∀ last cur : Int, 0 ≤ chart_rate last cur)
    ∧ (∀ us : List (Int × Int), ∀ x : Int,
        x ∈ (chart_run us).bytesInHistory → 0 ≤ x)
    ∧ (∀ us : List (Int × Int), ∀ x : Int,
        x ∈ (chart_run us).bytesOutHistory → 0 ≤ x)
    ∧ (chart_run [(100, 50), (80, 60)]).bytesInHistory.getLastD 1 = 0
    ∧ (chart_run [(100, 50), (80, 60)]).bytesOutHistory.getLastD 0 = 10 := by
  have hinit_in : ∀ x ∈ initChart.bytesInHistory, (0 : Int) ≤ x := by
    intro x hx
    have := List.eq_of_mem_replicate hx
    omega
  have hinit_out : ∀ x ∈ initChart.bytesOutHistory, (0 : Int) ≤ x := by
    intro x hx
    have := List.eq_of_mem_replicate hx
    omega
  refine ⟨?_, ?_, ?_, ?_, ?_, ?_, ?_, ?_⟩
  · intro last cur h1 h2
    unfold chart_rate
    split
    · rfl
    · omega
  · intro last cur h1
    unfold chart_rate
    split
    · omega
    · rfl
  · intro last cur h1
    unfold chart_rate
    split
    · omega
    · rfl
  · intro last cur
    unfold chart_rate
    split
    · omega
    · omega
  · intro us x hx
    exact (chart_run_hist_nonneg us initChart hinit_in hinit_out).1 x
      (by simpa [chart_run] using hx)
  · intro us x hx
    exact (chart_run_hist_nonneg us initChart hinit_in hinit_out).2 x
      (by simpa [chart_run] using hx)
  · decide
  · decide

/-- Witness for C5: the theorem applied at concrete inputs. -/
theorem rate_delta_and_no_negative_witness :
    ((0 : Int) < 50 ∧ (50 : Int) < 60 ∧ chart_rate 50 60 = 60 - 50)
    ∧ ((80 : Int) ≤ 100 ∧ chart_rate 100 80 = 0)
    ∧ ((0 : Int) ≤ 0 ∧ chart_rate 0 100 = 0)
    ∧ ((10 : Int) ∈ (chart_run [(100, 50), (80, 60)]).bytesOutHistory
        ∧ (0 : Int) ≤ 10) := by
  refine ⟨⟨by decide, by decide, ?_⟩, ⟨by decide, ?_⟩, ⟨by decide, ?_⟩, ⟨?_, ?_⟩⟩
  · exact rate_delta_and_no_negative.1 50 60 (by decide) (by decide)
  · exact rate_delta_and_no_negative.2.1 100 80 (by decide)
  · exact rate_delta_and_no_negative.2.2.1 0 100 (by decide)
  · decide
  · exact rate_delta_and_no_negative.2.2.2.2.2.1 [(100, 50), (80, 60)] 10 (by decide)

/-! ## Process results and the stats report scan

`subprocess.CompletedProcess` is embedded as `CmdResult`.  The loop of
`check_session_status` over `result.stdout.split('\n')` (source lines
530-554) both extracts the two byte counters and accumulates the displayed
stats lines; `stats_line_scan` is its per-line body.
-/

structure CmdResult where
  returncode : Int
  stdout : String
  stderr : String
deriving DecidableEq

/-- A line enters the `BYTES_IN` branch (source line 532): it contains
`BYTES_IN` and its stripped form does not start with `TUN_`. -/
def in_line (line : String) : Bool :=
  strContains line "BYTES_IN" && !(pyStartsWith (pyStrip line) "TUN_")

/-- A line enters the `BYTES_OUT` branch (source line 544). -/
def out_line (line : String) : Bool :=
  strContains line "BYTES_OUT" && !(pyStartsWith (pyStrip line) "TUN_")

/-- The numeric field extraction of source lines 536-539: only attempted
when the line contains a `.`; the field is everything after the last `.`,
stripped, converted by Python `int` (`none` = the swallowed exception). -/
def dot_field (line : String) : Option Int :=
  if strContains line "." then pyInt (pyStrip ((pySplitOn line ".").getLastD ""))
  else none

/-- Loop body of source lines 530-554 over one line: accumulator is
(bytes_in_value, bytes_out_value, accumulated stats text). -/
def stats_line_scan (acc : Int × Int × String) (line : String) :
    Int × Int × String :=
  if in_line line then
    match dot_field line with
    | some v => (v, acc.2.1, acc.2.2 ++ line ++ "\n")
    | none => (acc.1, acc.2.1, acc.2.2 ++ line ++ "\n")
  else if out_line line then
    match dot_field line with
    | some v => (acc.1, v, acc.2.2 ++ line ++ "\n")
    | none => (acc.1, acc.2.1, acc.2.2 ++ line ++ "\n")
  else if strContains line "CONNECTED" then
    (acc.1, acc.2.1, acc.2.2 ++ line ++ "\n")
  else acc

/-- The full scan of `result.stdout` (source lines 524-554 loop part). -/
def stats_scan (stdout : String) : Int × Int × String :=
  (pySplitOn stdout "\n").foldl stats_line_scan (0, 0, "")

/-- The byte counters `check_session_status` extracts from a stats dump
(source lines 524-556): the line scan runs only under the
`if "BYTES_IN" in result.stdout` gate of line 527; otherwise both counters
keep their initial value 0.  Total by construction (the embedded Python
`int` failure is `none` and leaves the counter unchanged, mirroring the
`try`/`except: pass`). -/
def parse_session_stats (text : String) : Int × Int :=
  if strContains text "BYTES_IN" then ((stats_scan text).1, (stats_scan text).2.1)
  else (0, 0)

/-- The parse as the specification words describe it (spec section 4.2):
scan every line for the two keys, with no precondition on the whole text.
Used to compare the spec text against `parse_session_stats`. -/
def spec_parse_session_stats (text : String) : Int × Int :=
  ((stats_scan text).1, (stats_scan text).2.1)

/-- The in-counter assignment a single line can make: `some v` iff the line
is in the `BYTES_IN` branch and carries a well-formed numeric field. -/
def in_field (line : String) : Option Int :=
  if in_line line then dot_field line else none

/-- The out-counter assignment a single line can make. -/
def out_field (line : String) : Option Int :=
  if out_line line then dot_field line else none

theorem stats_line_scan_fst (acc : Int × Int × String) (l : String)
    (h : in_field l = none) : (stats_line_scan acc l).1 = acc.1 := by
  unfold in_field at h
  unfold stats_line_scan
  by_cases hin : in_line l = true
  · rw [if_pos hin] at h
    rw [if_pos hin, h]
  · rw [if_neg hin]
    by_cases hout : out_line l = true
    · rw [if_pos hout]
      cases hd : dot_field l <;> rfl
    · rw [if_neg hout]
      by_cases hc : strContains l "CONNECTED" = true
      · rw [if_pos hc]
      · rw [if_neg hc]

theorem stats_line_scan_snd (acc : Int × Int × String) (l : String)
    (h : out_field l = none) : (stats_line_scan acc l).2.1 = acc.2.1 := by
  unfold out_field at h
  unfold stats_line_scan
  by_cases hin : in_line l = true
  · rw [if_pos hin]
    cases hd : dot_field l <;> rfl
  · rw [if_neg hin]
    by_cases hout : out_line l = true
    · rw [if_pos hout] at h
      rw [if_pos hout, h]
    · rw [if_neg hout]
      by_cases hc : strContains l "CONNECTED" = true
      · rw [if_pos hc]
      · rw [if_neg hc]

theorem stats_scan_fst_zero (lines : List String) :
    ∀ acc : Int × Int × String, (∀ l ∈ lines, in_field l = none) →
      (lines.foldl stats_line_scan acc).1 = acc.1 := by
  induction lines with
  | nil => intro acc h; rfl
  | cons l rest ih =>
      intro acc h
      rw [List.foldl_cons, ih _ (fun x hx => h x (List.mem_cons_of_mem l hx))]
      exact stats_line_scan_fst acc l (h l (List.mem_cons_self l rest))

theorem stats_scan_snd_zero (lines : List String) :
    ∀ acc : Int × Int × String, (∀ l ∈ lines, out_field l = none) →
      (lines.foldl stats_line_scan acc).2.1 = acc.2.1 := by
  induction lines with
  | nil => intro acc h; rfl
  | cons l rest ih =>
      intro acc h
      rw [List.foldl_cons, ih _ (fun x hx => h x (List.mem_cons_of_mem l hx))]
      exact stats_line_scan_snd acc l (h l (List.mem_cons_self l rest))

/-- C4 counterexample: the claim quantifies over every input text, but the
line scan in `check_session_status` runs only under the
`if "BYTES_IN" in result.stdout` gate, so a text consisting of a single
well-formed `BYTES_OUT` line (and no `BYTES_IN` substring anywhere) yields
`bytes_out = 0`, while the extraction the claim describes yields 5. -/
theorem parse_session_stats_gate_counterexample :
    parse_session_stats "BYTES_OUT.......5" = (0, 0)
    ∧ spec_parse_session_stats "BYTES_OUT.......5" = (0, 5)
    ∧ parse_session_stats "BYTES_OUT.......5"
        ≠ spec_parse_session_stats "BYTES_OUT.......5" := by
  refine ⟨by decide, by decide, by decide⟩

/-- C4 (amended): for every input text that contains the substring
`BYTES_IN`, the parse extracts BYTES_IN/BYTES_OUT exactly as the claim
describes (lines with the key whose stripped form does not start with
`TUN_`, numeric field after the last `.`); a text without that substring
yields zero counters even for well-formed `BYTES_OUT` lines.  In every
text where no line carries a valid field for a counter, that counter is 0
(malformed fields and the swallowed conversion exception leave it at its
initial zero), the parse is total by construction, and the concrete
scenario with a `TUN_`-prefixed and a plain `BYTES_IN` line yields 9438. -/
theorem parse_session_stats_amended :
    (∀ t : String, strContains t "BYTES_IN" = true →
        parse_session_stats t = spec_parse_session_stats t)
    ∧ (∀ t : String, (∀ l ∈ pySplitOn t "\n", in_field l = none) →
        (parse_session_stats t).1 = 0)
    ∧ (∀ t : String, (∀ l ∈ pySplitOn t "\n", out_field l = none) →
        (parse_session_stats t).2 = 0)
    ∧ parse_session_stats ("TUN_BYTES_IN....1234" ++ "\n" ++ "BYTES_IN.......9438")
        = (9438, 0) := by
  refine ⟨?_, ?_, ?_, by decide⟩
  · intro t ht
    unfold parse_session_stats
    rw [if_pos ht]
    rfl
  · intro t ht
    unfold parse_session_stats
    by_cases hg : strContains t "BYTES_IN" = true
    · rw [if_pos hg]
      exact stats_scan_fst_zero (pySplitOn t "\n") (0, 0, "") ht
    · rw [if_neg hg]
  · intro t ht
    unfold parse_session_stats
    by_cases hg : strContains t "BYTES_IN" = true
    · rw [if_pos hg]
      exact stats_scan_snd_zero (pySplitOn t "\n") (0, 0, "") ht
    · rw [if_neg hg]

/-- Witness for C4 (amended), at concrete inputs. -/
theorem parse_session_stats_amended_witness :
    parse_session_stats "BYTES_IN.......9438"
        = spec_parse_session_stats "BYTES_IN.......9438"
    ∧ (parse_session_stats "BYTES_IN....not_a_number").1 = 0
    ∧ (parse_session_stats "BYTES_IN.......9438").2 = 0 := by
  refine ⟨?_, ?_, ?_⟩
  · exact parse_session_stats_amended.1 "BYTES_IN.......9438" (by decide)
  · exact parse_session_stats_amended.2.1 "BYTES_IN....not_a_number" (by decide)
  · exact parse_session_stats_amended.2.2.1 "BYTES_IN.......9438" (by decide)

/-! ## Session state machine (`update_status`, `check_session_status`)

The GTK-visible connection state of `VPNManager` is the status text, the
two button sensitivities, the tracked session and the `is_connecting` guard
flag.  `process_status` is the `sessions-list` callback of `update_status`
(source lines 472-507); `process_session_status` is the `session-stats`
callback of `check_session_status` (source lines 509-570).  `poll_step`
chains the two callbacks of one poll in order on the owner thread.
-/

/-- The session-path namespace marker scanned for (source line 482). -/
def sessionsNS : String := "/net/openvpn/v3/sessions/"

/-- Session-path extraction of source lines 480-488: for each line of the
stripped stdout that contains the marker, append the first
whitespace-delimited part containing it. -/
def session_paths_of (text : String) : List String :=
  (pySplitOn (pyStrip text) "\n").foldl
    (fun acc line =>
      if strContains line sessionsNS then
        match (pySplitWs line).find? (fun part => strContains part sessionsNS) with
        | some p => acc ++ [p]
        | none => acc
      else acc) []

structure UIState where
  statusText : String
  isConnecting : Bool
  startSensitive : Bool
  stopSensitive : Bool
  currentSession : Option String
  chart : ChartState
deriving DecidableEq

/-- `process_status(result)` inside `update_status` (source lines 474-504).
Returns the updated state and, when session paths were found, the first
path, for which a `session-stats` call is issued. -/
def process_status (s : UIState) (r : CmdResult) : UIState × Option String :=
  if r.returncode = 0 ∧ pyStrip r.stdout ≠ "" then
    match session_paths_of r.stdout with
    | p :: _ => (s, some p)
    | [] =>
        if s.isConnecting = false then
          ({ s with
              stopSensitive := false
              startSensitive := true
              statusText := "Disconnected" }, none)
        else (s, none)
  else
    if s.isConnecting = false then
      ({ s with
          statusText := "Disconnected"
          startSensitive := true
          stopSensitive := false }, none)
    else (s, none)

/-- `process_session_status(result)` inside `check_session_status`
(source lines 511-567): on a zero exit the session is taken as connected,
the stats text is built and the chart updated with the parsed counters (or
zeros when the `BYTES_IN` gate fails); on a nonzero exit the state is
downgraded to Disconnected unless `is_connecting` is set. -/
def process_session_status (s : UIState) (path : String) (r : CmdResult) :
    UIState :=
  if r.returncode = 0 then
    if strContains r.stdout "BYTES_IN" then
      { statusText := "Connected\n\n" ++ ("Session: " ++ pyLastChars 12 path
          ++ "\n\n" ++ (stats_scan r.stdout).2.2)
        isConnecting := s.isConnecting
        startSensitive := false
        stopSensitive := true
        currentSession := some path
        chart := update_chart_data s.chart (stats_scan r.stdout).1
          (stats_scan r.stdout).2.1 }
    else
      { statusText := "Connected\n\n" ++ ("Session: " ++ path ++ "\n\n"
          ++ pyTakeChars 500 r.stdout)
        isConnecting := s.isConnecting
        startSensitive := false
        stopSensitive := true
        currentSession := some path
        chart := update_chart_data s.chart 0 0 }
  else
    if s.isConnecting = false then
      { s with
          stopSensitive := false
          startSensitive := true
          statusText := "Disconnected" }
    else s

/-- One poll: the `sessions-list` callback, then (when a session path was
found) the `session-stats` callback, applied in order on the owner thread. -/
def poll_step (s : UIState) (listR statsR : CmdResult) : UIState :=
  match process_status s listR with
  | (s1, none) => s1
  | (s1, some p) => process_session_status s1 p statsR

theorem poll_step_eq (s : UIState) (lR sR : CmdResult) :
    poll_step s lR sR =
      match (process_status s lR).2 with
      | none => (process_status s lR).1
      | some p => process_session_status (process_status s lR).1 p sR := by
  unfold poll_step
  rcases hq : process_status s lR with ⟨s1, q⟩
  cases q <;> rfl

theorem process_status_guard_fst (s : UIState) (r : CmdResult)
    (hc : s.isConnecting = true) : (process_status s r).1 = s := by
  unfold process_status
  split
  · split
    · rfl
    · simp [hc]
  · simp [hc]

theorem connected_text_ne (t : String) :
    "Connected\n\n" ++ t ≠ "Disconnected" := by
  intro h
  have h2 : ("Connected\n\n" ++ t).data = "Disconnected".data :=
    congrArg String.data h
  rw [String.data_append] at h2
  have e1 : "Connected\n\n".data = 'C' :: "onnected\n\n".data := rfl
  have e2 : "Disconnected".data = 'D' :: "isconnected".data := rfl
  rw [e1, e2, List.cons_append] at h2
  injection h2 with h3 h4
  exact absurd h3 (by decide)

theorem process_session_status_guarded (s : UIState) (p : String)
    (r : CmdResult) (hc : s.isConnecting = true)
    (hd : (process_session_status s p r).statusText = "Disconnected") :
    s.statusText = "Disconnected" := by
  unfold process_session_status at hd
  by_cases h0 : r.returncode = 0
  · rw [if_pos h0] at hd
    by_cases hb : strContains r.stdout "BYTES_IN" = true
    · rw [if_pos hb] at hd
      exact absurd hd (connected_text_ne _)
    · rw [if_neg hb] at hd
      exact absurd hd (connected_text_ne _)
  · rw [if_neg h0] at hd
    simp [hc] at hd
    exact hd

/-- C1 counterexample: the only guard flag in the code is `is_connecting`;
during a disconnect (`disconnect_session` sets the status text
"Disconnecting..." and no flag), a poll whose `sessions-list` returns an
empty listing transitions the state to Disconnected, so a poll arriving in
the Disconnecting state does downgrade, contrary to the claim. -/
theorem poll_disconnecting_downgrades :
    ((⟨"Disconnecting...", false, false, true,
        some "/net/openvpn/v3/sessions/ab1", initChart⟩ : UIState).statusText
      = "Disconnecting...")
    ∧ (poll_step
        ⟨"Disconnecting...", false, false, true,
          some "/net/openvpn/v3/sessions/ab1", initChart⟩
        ⟨0, "", ""⟩ ⟨1, "", ""⟩).statusText = "Disconnected" := by
  refine ⟨rfl, by decide⟩

/-- C1 (amended): a poll arriving while the `is_connecting` guard flag is
set (the Connecting state) never transitions the state to Disconnected —
neither an empty session listing nor a failed stats fetch downgrades it.
The code has no corresponding guard for the Disconnecting phase, where a
poll may set Disconnected. -/
theorem poll_guard_connecting (s : UIState) (lR sR : CmdResult)
    (hc : s.isConnecting = true)
    (hd : (poll_step s lR sR).statusText = "Disconnected") :
    s.statusText = "Disconnected" := by
  rw [poll_step_eq] at hd
  rcases hsnd : (process_status s lR).2 with _ | p
  · rw [hsnd] at hd
    rw [process_status_guard_fst s lR hc] at hd
    exact hd
  · rw [hsnd] at hd
    rw [process_status_guard_fst s lR hc] at hd
    exact process_session_status_guarded s p sR hc hd

/-- Witness for C1 (amended): a concrete guarded state on which the poll
preserves the status text. -/
theorem poll_guard_connecting_witness :
    ((⟨"Disconnected", true, true, false, none, initChart⟩ : UIState).isConnecting
      = true)
    ∧ (poll_step ⟨"Disconnected", true, true, false, none, initChart⟩
        ⟨0, "", ""⟩ ⟨0, "", ""⟩).statusText = "Disconnected"
    ∧ (⟨"Disconnected", true, true, false, none, initChart⟩ : UIState).statusText
      = "Disconnected" := by
  refine ⟨rfl, by decide, ?_⟩
  exact poll_guard_connecting
    ⟨"Disconnected", true, true, false, none, initChart⟩
    ⟨0, "", ""⟩ ⟨0, "", ""⟩ rfl (by decide)

/-! ## Config listing parse (`refresh_configs` / `update_combo`)

Source lines 354-376: on a zero exit the stripped stdout is split into
lines, the first two (header) lines are skipped, blank lines and lines
starting with `-` are skipped, and for each remaining line the first
whitespace-delimited token is the config path, displayed under its final
path segment; the display-name-to-path dict is rebuilt from scratch, later
duplicates overwriting earlier ones.
-/

structure ConfigsState where
  comboItems : List String
  configPaths : List (String × String)
deriving DecidableEq

/-- The entry one data line contributes (source lines 362-370): `none` for
blank or `-`-led lines (and for the unreachable empty-parts case). -/
def line_entry (line : String) : Option (String × String) :=
  if pyStrip line ≠ "" ∧ pyStartsWith line "-" = false then
    match pySplitWs line with
    | [] => none
    | p :: _ => some (basename p, p)
  else none

/-- Loop body of `update_combo` over one line. -/
def combo_line_step (st : ConfigsState) (line : String) : ConfigsState :=
  match line_entry line with
  | none => st
  | some e =>
      { comboItems := st.comboItems ++ [e.1]
        configPaths := dictInsert st.configPaths e.1 e.2 }

/-- The `update_combo(result)` callback of `refresh_configs` (source lines
356-374): both the combo list and the path dict are reset, then rebuilt
from `lines[2:]` on success; on failure the combo shows a placeholder. -/
def update_combo (r : CmdResult) : ConfigsState :=
  if r.returncode = 0 then
    ((pySplitOn (pyStrip r.stdout) "\n").drop 2).foldl combo_line_step ⟨[], []⟩
  else ⟨["No configs available"], []⟩

/-- The parsed (display name, path) entries in listing order. -/
def config_entries (r : CmdResult) : List (String × String) :=
  if r.returncode = 0 then
    ((pySplitOn (pyStrip r.stdout) "\n").drop 2).filterMap line_entry
  else []

/-- The value of the last entry with the given display name. -/
def lastWins (l : List (String × String)) (d : String) : Option String :=
  l.foldl (fun acc e => if e.1 = d then some e.2 else acc) none

theorem lastWins_from (l : List (String × String)) (d : String) :
    ∀ a : Option String,
      l.foldl (fun acc e => if e.1 = d then some e.2 else acc) a
        = match lastWins l d with
          | some v => some v
          | none => a := by
  induction l with
  | nil => intro a; rfl
  | cons e l ih =>
      intro a
      rw [List.foldl_cons]
      rw [ih]
      have hl : lastWins (e :: l) d
          = match lastWins l d with
            | some v => some v
            | none => if e.1 = d then some e.2 else none := by
        unfold lastWins
        rw [List.foldl_cons, ih]
        rfl
      rw [hl]
      cases hlw : lastWins l d
      · by_cases he : e.1 = d <;> simp [he]
      · rfl

theorem combo_fold_lookup (lines : List String) (d : String) :
    ∀ st : ConfigsState,
      dictLookup ((lines.foldl combo_line_step st).configPaths) d
        = match lastWins (lines.filterMap line_entry) d with
          | some v => some v
          | none => dictLookup st.configPaths d := by
  induction lines with
  | nil => intro st; rfl
  | cons l ls ih =>
      intro st
      rw [List.foldl_cons]
      cases hle : line_entry l
      · have hstep : combo_line_step st l = st := by
          unfold combo_line_step
          rw [hle]
        rw [hstep, ih, List.filterMap_cons_none hle]
      · rename_i e
        have hstep : combo_line_step st l
            = { comboItems := st.comboItems ++ [e.1]
                configPaths := dictInsert st.configPaths e.1 e.2 } := by
          unfold combo_line_step
          rw [hle]
        rw [hstep, ih, List.filterMap_cons_some hle]
        have hl : lastWins (e :: ls.filterMap line_entry) d
            = match lastWins (ls.filterMap line_entry) d with
              | some v => some v
              | none => if e.1 = d then some e.2 else none := by
          unfold lastWins
          rw [List.foldl_cons, lastWins_from]
          rfl
        rw [hl]
        cases hlw : lastWins (ls.filterMap line_entry) d
        · rw [dictLookup_dictInsert]
          by_cases he : e.1 = d <;> simp [he]
        · rfl

/-- C8: the config-listing parse skips the two header lines and separator
lines, takes the first whitespace token of each remaining non-blank line
as the path with the final path segment as display name, and resolves
duplicate display names last-one-wins in the name-to-path map; the
scenario with a two-line header and single data line
`"/home/u/a.ovpn  0  0"` yields exactly one entry `"a.ovpn"`. -/
theorem refresh_configs_parse :
    (∀ r : CmdResult, ∀ d : String,
        dictLookup (update_combo r).configPaths d = lastWins (config_entries r) d)
    ∧ update_combo
        ⟨0, "Configuration path Imported Last used\nSecond header line\n/home/u/a.ovpn  0  0", ""⟩
        = ⟨["a.ovpn"], [("a.ovpn", "/home/u/a.ovpn")]⟩
    ∧ update_combo
        ⟨0, "Configuration path Imported Last used\nSecond header line\n------------------\n/home/u/a.ovpn  0  0", ""⟩
        = ⟨["a.ovpn"], [("a.ovpn", "/home/u/a.ovpn")]⟩
    ∧ dictLookup (update_combo
        ⟨0, "h1\nh2\n/a/x.ovpn  0  0\n/b/x.ovpn  1  1", ""⟩).configPaths "x.ovpn"
        = some "/b/x.ovpn" := by
  refine ⟨?_, by decide, by decide, by decide⟩
  intro r d
  unfold update_combo config_entries
  by_cases h0 : r.returncode = 0
  · rw [if_pos h0, if_pos h0, combo_fold_lookup]
    cases hlw : lastWins (((pySplitOn (pyStrip r.stdout) "\n").drop 2).filterMap line_entry) d
    · rfl
    · rfl
  · rw [if_neg h0, if_neg h0]
    rfl

/-! ## Credential store (`save_credentials`, `get_credentials_for_config`)

Source lines 1083-1154.  The in-memory dict `stored_credentials`, the
keyring entry (`keyring.set_password("vpn3gui", "credentials", json)`,
modelled as storing the mapping itself in place of its JSON serialisation)
and the local credentials file are the three stores.  A backend write gets
a boolean outcome: `kOk` is whether `keyring.set_password` succeeded, and
`fOk` whether the fallback file write succeeded (its failure propagates out
of `save_credentials` in the source, after the in-memory update).  File
permission bits (`os.chmod 0o600`) are not modelled (no claim concerns
them).
-/

structure Credential where
  username : String
  password : String
deriving DecidableEq

structure CredState where
  storedCredentials : List (String × Credential)
  keyringData : Option (List (String × Credential))
  fileData : Option (List (String × Credential))
  keyringAvailable : Bool
  useKeyring : Bool
deriving DecidableEq

/-- The fallback file write of source lines 1143-1147 (mkdir + json.dump):
on success the file holds the whole in-memory mapping. -/
def file_write (s : CredState) (fOk : Bool) : CredState :=
  if fOk = true then { s with fileData := some s.storedCredentials } else s

/-- `save_credentials(config_name, username, password, remember)` (source
lines 1116-1147): no-op unless `remember`; the in-memory mapping is always
updated first; then the keyring is tried when available and enabled, and on
its failure (or when disabled) the file fallback is written. -/
def save_credentials (s : CredState) (n u p : String)
    (remember kOk fOk : Bool) : CredState :=
  if remember = false then s
  else if s.keyringAvailable = true ∧ s.useKeyring = true then
    if kOk = true then
      { s with
          storedCredentials := dictInsert s.storedCredentials n ⟨u, p⟩
          keyringData := some (dictInsert s.storedCredentials n ⟨u, p⟩) }
    else
      file_write
        { s with storedCredentials := dictInsert s.storedCredentials n ⟨u, p⟩ }
        fOk
  else
    file_write
      { s with storedCredentials := dictInsert s.storedCredentials n ⟨u, p⟩ }
      fOk

/-- Whether `save_credentials` raises (the fallback file write is not
wrapped in `try` in the source; a failure there propagates to the caller,
after the in-memory update already happened). -/
def save_credentials_raises (s : CredState) (remember kOk fOk : Bool) : Bool :=
  remember && !(s.keyringAvailable && s.useKeyring && kOk) && !fOk

/-- `get_credentials_for_config(config_name)` (source lines 1149-1154):
pure in-memory lookup. -/
def get_credentials_for_config (s : CredState) (n : String) :
    Option String × Option String :=
  match dictLookup s.storedCredentials n with
  | some cred => (some cred.username, some cred.password)
  | none => (none, none)

theorem save_credentials_stored (s : CredState) (n u p : String)
    (kOk fOk : Bool) :
    (save_credentials s n u p true kOk fOk).storedCredentials
      = dictInsert s.storedCredentials n ⟨u, p⟩ := by
  unfold save_credentials
  rw [if_neg (by decide : ¬ (true = false))]
  split
  · split
    · rfl
    · unfold file_write
      split <;> rfl
  · unfold file_write
    split <;> rfl

/-- C6: saving a credential and then getting it for the same display name
returns exactly the saved username and secret, regardless of which backend
is active and of whether the keyring or file write succeeded — the
in-memory mapping is updated first. -/
theorem save_then_get_round_trip (s : CredState) (n u p : String)
    (kOk fOk : Bool) :
    get_credentials_for_config (save_credentials s n u p true kOk fOk) n
      = (some u, some p) := by
  unfold get_credentials_for_config
  rw [save_credentials_stored, dictLookup_dictInsert_self]

/-- C10: `save_credentials` with `remember=False` returns before touching
anything: the whole state (in-memory mapping, keyring, file) is unchanged
and a subsequent get returns whatever was stored before. -/
theorem save_credentials_no_remember_noop (s : CredState) (n u p : String)
    (kOk fOk : Bool) :
    save_credentials s n u p false kOk fOk = s
    ∧ (∀ d : String,
        get_credentials_for_config (save_credentials s n u p false kOk fOk) d
          = get_credentials_for_config s d) := by
  have h : save_credentials s n u p false kOk fOk = s := by
    unfold save_credentials
    rw [if_pos rfl]
  exact ⟨h, fun d => by rw [h]⟩

/-! ## Credential migration (`migrate_all_credentials` loop body)

Source lines 1648-1669: for one plaintext finding, read the auth file;
with at least two lines, save the stripped first two lines through the
credential store, then copy the file to `<path>.backup` only when that
backup does not already exist.  The filesystem is an association list from
path to content; `shutil.copy2` is the insert (its own failure modes and
the permission bits are not modelled; no claim concerns them).
-/

structure Finding where
  displayName : String
  configPath : String
  authFile : String
deriving DecidableEq

/-- The credential-store write the migration performs for one finding. -/
def migrate_saved (cs : CredState) (f : Finding) (content : String)
    (kOk fOk : Bool) : CredState :=
  save_credentials cs f.displayName (pyStrip ((pyReadlines content).getD 0 ""))
    (pyStrip ((pyReadlines content).getD 1 "")) true kOk fOk

/-- One iteration of the `migrate_all_credentials` loop (source lines
1648-1669) over one finding: `(credential store, filesystem)` after the
iteration.  A missing auth file or one with fewer than two lines is a
failed finding (state unchanged); a raising store write (caught by the
loop's `try`) skips the backup step. -/
def migrate_one (cs : CredState) (fs : List (String × String)) (f : Finding)
    (kOk fOk : Bool) : CredState × List (String × String) :=
  match dictLookup fs f.authFile with
  | none => (cs, fs)
  | some content =>
      if 2 ≤ (pyReadlines content).length then
        if save_credentials_raises cs true kOk fOk = true then
          (migrate_saved cs f content kOk fOk, fs)
        else if (dictLookup fs (f.authFile ++ ".backup")).isSome = true then
          (migrate_saved cs f content kOk fOk, fs)
        else
          (migrate_saved cs f content kOk fOk,
            dictInsert fs (f.authFile ++ ".backup") content)
      else (cs, fs)

theorem self_ne_backup (s : String) : s ≠ s ++ ".backup" := by
  intro h
  have h2 := congrArg String.length h
  rw [String.length_append] at h2
  have h3 : String.length ".backup" = 7 := rfl
  omega

theorem migrate_one_fs_of_backup (cs : CredState)
    (fs : List (String × String)) (f : Finding) (kOk fOk : Bool)
    (h : (dictLookup fs (f.authFile ++ ".backup")).isSome = true) :
    (migrate_one cs fs f kOk fOk).2 = fs := by
  unfold migrate_one
  split
  · rfl
  · repeat' split
    all_goals rfl

/-- C7: the migration of one finding never modifies the original auth
file, never overwrites an existing sibling backup, and a second run on the
same finding leaves the filesystem exactly as the first run left it
whenever the backup exists after the first run (in particular after any
successful first migration). -/
theorem migrate_backup_idempotent :
    (∀ (cs : CredState) (fs : List (String × String)) (f : Finding)
        (kOk fOk : Bool),
        dictLookup (migrate_one cs fs f kOk fOk).2 f.authFile
          = dictLookup fs f.authFile)
    ∧ (∀ (cs : CredState) (fs : List (String × String)) (f : Finding)
        (kOk fOk : Bool) (c : String),
        dictLookup fs (f.authFile ++ ".backup") = some c →
        dictLookup (migrate_one cs fs f kOk fOk).2 (f.authFile ++ ".backup")
          = some c)
    ∧ (∀ (cs : CredState) (fs : List (String × String)) (f : Finding)
        (kOk fOk k2 f2 : Bool),
        (dictLookup (migrate_one cs fs f kOk fOk).2
            (f.authFile ++ ".backup")).isSome = true →
        (migrate_one (migrate_one cs fs f kOk fOk).1
            (migrate_one cs fs f kOk fOk).2 f k2 f2).2
          = (migrate_one cs fs f kOk fOk).2) := by
  refine ⟨?_, ?_, ?_⟩
  · intro cs fs f kOk fOk
    unfold migrate_one
    split
    · rfl
    · repeat' split
      all_goals
        first
          | rfl
          | exact dictLookup_dictInsert_ne fs (f.authFile ++ ".backup")
              f.authFile _ (fun h => self_ne_backup f.authFile h.symm)
  · intro cs fs f kOk fOk c hc
    rw [migrate_one_fs_of_backup cs fs f kOk fOk (by rw [hc]; rfl)]
    exact hc
  · intro cs fs f kOk fOk k2 f2 h
    exact migrate_one_fs_of_backup _ _ f k2 f2 h

def witness_finding : Finding := ⟨"vpn1", "/cfg/a", "/auth"⟩

def witness_fs : List (String × String) := [("/auth", "user\npass\n")]

def witness_cred_state : CredState := ⟨[], none, none, true, true⟩

/-- Witness for C7: the theorem applied to a concrete finding, filesystem
and store state. -/
theorem migrate_backup_idempotent_witness :
    dictLookup (migrate_one witness_cred_state witness_fs witness_finding
        true true).2 "/auth"
      = dictLookup witness_fs "/auth"
    ∧ dictLookup (migrate_one witness_cred_state
        (dictInsert witness_fs ("/auth" ++ ".backup") "old") witness_finding
        true true).2 ("/auth" ++ ".backup") = some "old"
    ∧ (migrate_one (migrate_one witness_cred_state witness_fs witness_finding
          true true).1
        (migrate_one witness_cred_state witness_fs witness_finding
          true true).2 witness_finding true true).2
      = (migrate_one witness_cred_state witness_fs witness_finding
          true true).2 := by
  refine ⟨?_, ?_, ?_⟩
  · exact migrate_backup_idempotent.1 witness_cred_state witness_fs
      witness_finding true true
  · exact migrate_backup_idempotent.2.1 witness_cred_state
      (dictInsert witness_fs ("/auth" ++ ".backup") "old") witness_finding
      true true "old" (by decide)
  · exact migrate_backup_idempotent.2.2 witness_cred_state witness_fs
      witness_finding true true true true (by decide)

/-! ## Process gateway (`run_command`)

Source lines 332-352: the worker thread runs `subprocess.run` with a 10
second timeout inside `try`; a completed process (any exit code) is posted
to the invocation's callback via `GLib.idle_add`; `TimeoutExpired` posts
the fixed error message and any other exception (e.g. a missing
executable) posts its message, both to the owner-thread error handler.
The three possible worker outcomes and the single event each one posts to
the owner thread are modelled explicitly.
-/

inductive ProcOutcome where
  | completed (r : CmdResult)
  | timedOut
  | launchFailed (msg : String)
deriving DecidableEq

/-- The one event `run_command` posts onto the owner thread's event queue
for an invocation with a callback. -/
inductive Delivered where
  | callbackResult (r : CmdResult)
  | errorDialog (msg : String)
deriving DecidableEq

/-- The `try`/`except` dispatch of the `run_command` worker (source lines
337-348), for an invocation made with a callback. -/
def run_command_deliver : ProcOutcome → Delivered
  | .completed r => .callbackResult r
  | .timedOut => .errorDialog "Command timed out"
  | .launchFailed msg => .errorDialog msg

/-- C3: every worker outcome of `run_command` is delivered as exactly one
event value on the owner thread: a completed process — any exit code,
uninterpreted — reaches the callback with its exit code and captured
output verbatim; a timeout becomes the distinguished timed-out message;
an inability to launch becomes an error event carrying the exception
message; no outcome escapes as an uncaught fault (the dispatch is a total
function) and none is dropped. -/
theorem run_command_outcome_delivery :
    (∀ r : CmdResult, run_command_deliver (ProcOutcome.completed r)
        = Delivered.callbackResult r)
    ∧ run_command_deliver ProcOutcome.timedOut
        = Delivered.errorDialog "Command timed out"
    ∧ (∀ m : String, run_command_deliver (ProcOutcome.launchFailed m)
        = Delivered.errorDialog m)
    ∧ (∀ r : CmdResult, run_command_deliver ProcOutcome.timedOut
        ≠ run_command_deliver (ProcOutcome.completed r))
    ∧ (∀ o : ProcOutcome, ∃ d : Delivered, run_command_deliver o = d) := by
  refine ⟨fun r => rfl, rfl, fun m => rfl, fun r h => ?_, fun o => ⟨_, rfl⟩⟩
  exact absurd h (by simp [run_command_deliver])

/-- Witness for C3 at a concrete completed process. -/
theorem run_command_outcome_delivery_witness :
    run_command_deliver (ProcOutcome.completed ⟨1, "out", "err"⟩)
      = Delivered.callbackResult ⟨1, "out", "err"⟩
    ∧ run_command_deliver ProcOutcome.timedOut
      ≠ run_command_deliver (ProcOutcome.completed ⟨1, "out", "err"⟩) := by
  exact ⟨run_command_outcome_delivery.1 ⟨1, "out", "err"⟩,
    run_command_outcome_delivery.2.2.2.1 ⟨1, "out", "err"⟩⟩

/-! ## Session start invocation (`start_vpn_with_credentials`)

Source lines 1232-1244: `subprocess.Popen(["openvpn3", "session-start",
"--config", config_path], ...)` with the credential written to the
process's stdin as `f"{username}\n{password}\n"`.
-/

structure StartInvocation where
  argv : List String
  stdinData : String
deriving DecidableEq

/-- The process invocation `start_vpn_with_credentials` builds. -/
def start_vpn_invocation (config_path username password : String) :
    StartInvocation :=
  { argv := ["openvpn3", "session-start", "--config", config_path]
    stdinData := username ++ "\n" ++ password ++ "\n" }

/-- C9: the session-start argument list is built from the tool name,
subcommand, flag and config path only — it is identical for every
credential (non-interference) — and the credential is supplied solely on
the input stream as two lines, username then secret. -/
theorem session_start_credential_channel :
    (∀ cfg u p : String, (start_vpn_invocation cfg u p).argv
        = ["openvpn3", "session-start", "--config", cfg])
    ∧ (∀ cfg u p u2 p2 : String,
        (start_vpn_invocation cfg u p).argv = (start_vpn_invocation cfg u2 p2).argv)
    ∧ (∀ cfg u p : String, (start_vpn_invocation cfg u p).stdinData
        = u ++ "\n" ++ p ++ "\n") := by
  exact ⟨fun cfg u p => rfl, fun cfg u p u2 p2 => rfl, fun cfg u p => rfl⟩
